import Mathlib

set_option maxRecDepth 4096

/-!
Verification of the ag0-template-video-agent repository core:
the conversation state reducer (handleTaskEvents in
src/ui/src/lib/zypher-ui/use_agent.ts), the task API client
(task_api_client.ts), the MCP status hook and its retry pipeline
(use_mcp_servers.ts), and the reverse-proxy middleware
(src/api/middlewares/proxy.ts).  Each definition is a shallow
embedding of the corresponding TypeScript source.
-/

namespace VideoAgent

/-! ## Data model (src/ui/src/lib/zypher-ui/types.ts) -/

/-- Message role, from the `role: "user" | "assistant"` field. -/
inductive Role
  | user
  | assistant
deriving DecidableEq

/-- Content blocks, the closed union `ContentBlock` of types.ts.
Payload fields not inspected by the reducer are carried as strings. -/
inductive ContentBlock
  | text (text : String)
  | image (source mediaType : String)
  | toolUse (toolUseId name input : String)
  | toolResult (toolUseId name input : String) (success : Bool)
  | fileAttachment (fileId mimeType : String)
  | thinking (signature thinking : String)
deriving DecidableEq

/-- A finalized message as stored by the hook (`CompleteMessage` in
use_agent.ts); the `type: "complete"` tag is implicit in the Lean type. -/
structure CompleteMessage where
  id : String
  role : Role
  content : List ContentBlock
  timestamp : Nat
  checkpointId : Option String
deriving DecidableEq

/-- A streaming fragment (`StreamingMessage` in use_agent.ts):
either growing text or a tool invocation whose input JSON is being
assembled from concatenated chunks. -/
inductive StreamingMessage
  | streamingText (id text : String) (timestamp : Nat)
  | streamingToolUse (id toolUseName partialInput : String) (timestamp : Nat)
deriving DecidableEq

/-- Payload of a `message` server event (the `e.message` object). -/
structure MessagePayload where
  role : Role
  content : List ContentBlock
  timestamp : Nat
  checkpointId : Option String
deriving DecidableEq

/-- Server events (`TaskWebSocketServerMessage` union of types.ts),
restricted to the fields the reducer reads.  Event kinds with no case in
the reducer switch are included so that the no-op behaviour is part of
the model. -/
inductive TaskEvent
  | text (content : String)
  | message (message : MessagePayload)
  | historyChanged
  | toolUse (toolUseId toolName : String)
  | toolUseInput (toolUseId toolName partialInput : String)
  | toolUsePendingApproval (toolUseId toolName : String)
  | toolUseApproved (toolUseId toolName : String)
  | toolUseRejected (toolUseId toolName reason : String)
  | toolUseResult (toolUseId toolName : String)
  | toolUseError (toolUseId toolName : String)
  | toolUseCancelled (toolUseId toolName : String)
  | cancelled (reason : String)
  | usage
  | completed
  | heartbeat (timestamp : Nat)
  | error (message : String)
deriving DecidableEq

/-- `generateMessageId` of use_agent.ts produces `{pfx}-{uniqueId}`;
hexoid uniqueness is modelled by a counter threaded through the state. -/
def generateMessageId (pfx : String) (n : Nat) : String :=
  pfx ++ "-" ++ Nat.repr n

/-- The client-side conversation state folded by `handleTaskEvents`:
the SWR message cache, the `streamingMessages` state, the
`isTaskRunning` flag, and the id counter modelling hexoid. -/
structure AgentState where
  messages : List CompleteMessage
  streamingMessages : List StreamingMessage
  isTaskRunning : Bool
  nextId : Nat
deriving DecidableEq

/-- The empty conversation state. -/
def initialAgentState : AgentState :=
  { messages := [], streamingMessages := [], isTaskRunning := false, nextId := 0 }

/-! ## The conversation state reducer

One step of the `switch (e.type)` in `handleTaskEvents`
(use_agent.ts lines 233 to 363).  `now` is the wall clock value used
for `new Date()` when a fragment is created. -/

def handleTaskEvent (e : TaskEvent) (now : Nat) (st : AgentState) : AgentState :=
  match e with
  | .text content =>
      -- case "text": append to the last fragment when it is streaming
      -- text, otherwise push a new streaming text fragment.
      match st.streamingMessages.getLast? with
      | some (.streamingText id t ts) =>
          { st with streamingMessages :=
              st.streamingMessages.dropLast ++ [.streamingText id (t ++ content) ts] }
      | _ =>
          { st with
            streamingMessages := st.streamingMessages ++
              [.streamingText (generateMessageId "delta" st.nextId) content now],
            nextId := st.nextId + 1 }
  | .toolUse _ toolName =>
      -- case "tool_use": always pushes a new fragment with empty input;
      -- the previously open fragment is left in the list.
      { st with
        streamingMessages := st.streamingMessages ++
          [.streamingToolUse (generateMessageId "delta" st.nextId) toolName "" now],
        nextId := st.nextId + 1 }
  | .toolUseInput _ toolName partialInput =>
      -- case "tool_use_input": concatenate onto the last fragment when it
      -- is a streaming tool use with the same tool name, otherwise push a
      -- new fragment seeded with this chunk.
      match st.streamingMessages.getLast? with
      | some (.streamingToolUse id n pi ts) =>
          if n = toolName then
            { st with streamingMessages :=
                st.streamingMessages.dropLast ++ [.streamingToolUse id n (pi ++ partialInput) ts] }
          else
            { st with
              streamingMessages := st.streamingMessages ++
                [.streamingToolUse (generateMessageId "delta" st.nextId) toolName partialInput now],
              nextId := st.nextId + 1 }
      | _ =>
          { st with
            streamingMessages := st.streamingMessages ++
              [.streamingToolUse (generateMessageId "delta" st.nextId) toolName partialInput now],
            nextId := st.nextId + 1 }
  | .message m =>
      -- case "message": append one finalized message to the cache and
      -- clear the streaming fragment list.
      { st with
        messages := st.messages ++
          [{ id := generateMessageId "message" st.nextId,
             role := m.role, content := m.content,
             timestamp := m.timestamp, checkpointId := m.checkpointId }],
        streamingMessages := [],
        nextId := st.nextId + 1 }
  | .historyChanged =>
      -- case "history_changed": triggers a refetch of the authoritative
      -- list from the server; the local fold state is not mutated here.
      st
  | .cancelled _ => st   -- case "cancelled": logs only
  | .completed => st     -- case "completed": empty body
  | _ => st              -- event kinds with no case in the switch

/-- Fold a sequence of (event, wall clock) pairs through the reducer. -/
def foldTaskEvents (evs : List (TaskEvent × Nat)) (st : AgentState) : AgentState :=
  evs.foldl (fun s p => handleTaskEvent p.1 p.2 s) st

/-! ## Helper predicates and lemmas for the reducer claims -/

/-- Events handled by the `tool_use` and `tool_use_input` cases. -/
def isToolStreamEvent : TaskEvent → Bool
  | .toolUse _ _ => true
  | .toolUseInput _ _ _ => true
  | _ => false

/-- The fragment list is empty or a single streaming text fragment. -/
def singleTextFragment : List StreamingMessage → Bool
  | [] => true
  | [.streamingText _ _ _] => true
  | _ => false

/-- Whether the last fragment of the list is a streaming text fragment. -/
def lastIsStreamingText (l : List StreamingMessage) : Bool :=
  match l.getLast? with
  | some (.streamingText _ _ _) => true
  | _ => false

/-- Left-to-right concatenation of chunks starting from `t`, the way the
reducer accumulates `lastMessage.text + e.content`. -/
def concatFrom (t : String) : List String → String
  | [] => t
  | c :: cs => concatFrom (t ++ c) cs

/-- Concatenation of all chunks in arrival order. -/
def concatChunks (cs : List String) : String :=
  concatFrom "" cs

theorem singleTextFragment_cases {l : List StreamingMessage}
    (h : singleTextFragment l = true) :
    l = [] ∨ ∃ id t ts, l = [.streamingText id t ts] := by
  match l with
  | [] => exact Or.inl rfl
  | [.streamingText id t ts] => exact Or.inr ⟨id, t, ts, rfl⟩
  | [.streamingToolUse _ _ _ _] => simp [singleTextFragment] at h
  | _ :: _ :: _ => simp [singleTextFragment] at h

theorem handleTaskEvent_preserves_singleText
    (e : TaskEvent) (now : Nat) (st : AgentState)
    (he : isToolStreamEvent e = false)
    (hs : singleTextFragment st.streamingMessages = true) :
    singleTextFragment (handleTaskEvent e now st).streamingMessages = true := by
  cases e with
  | text content =>
      rcases singleTextFragment_cases hs with h0 | ⟨id, t, ts, h1⟩
      · simp [handleTaskEvent, h0, singleTextFragment]
      · simp [handleTaskEvent, h1, singleTextFragment]
  | toolUse _ _ => simp [isToolStreamEvent] at he
  | toolUseInput _ _ _ => simp [isToolStreamEvent] at he
  | message m => simp [handleTaskEvent, singleTextFragment]
  | historyChanged => exact hs
  | toolUsePendingApproval _ _ => exact hs
  | toolUseApproved _ _ => exact hs
  | toolUseRejected _ _ _ => exact hs
  | toolUseResult _ _ => exact hs
  | toolUseError _ _ => exact hs
  | toolUseCancelled _ _ => exact hs
  | cancelled _ => exact hs
  | usage => exact hs
  | completed => exact hs
  | heartbeat _ => exact hs
  | error _ => exact hs

theorem foldTaskEvents_preserves_singleText
    (evs : List (TaskEvent × Nat)) :
    ∀ st : AgentState, (∀ p ∈ evs, isToolStreamEvent p.1 = false) →
      singleTextFragment st.streamingMessages = true →
      singleTextFragment (foldTaskEvents evs st).streamingMessages = true := by
  induction evs with
  | nil => intro st _ hs; exact hs
  | cons p ps ih =>
      intro st hall hs
      have hp : isToolStreamEvent p.1 = false := hall p (List.mem_cons_self p ps)
      have hrest : ∀ q ∈ ps, isToolStreamEvent q.1 = false :=
        fun q hq => hall q (List.mem_cons_of_mem p hq)
      have : singleTextFragment (handleTaskEvent p.1 p.2 st).streamingMessages = true :=
        handleTaskEvent_preserves_singleText p.1 p.2 st hp hs
      exact ih (handleTaskEvent p.1 p.2 st) hrest this

theorem singleTextFragment_length_le {l : List StreamingMessage}
    (h : singleTextFragment l = true) : l.length ≤ 1 := by
  rcases singleTextFragment_cases h with h0 | ⟨_, _, _, h1⟩
  · simp [h0]
  · simp [h1]

/-! ## C1: fragment exclusivity -/

/-- C1 counterexample: the claim that after folding each server event the
open fragment list has at most one element is false.  Folding a `text`
event and then a `tool_use` event from the empty state leaves two open
fragments, because the `tool_use` case pushes a new fragment without
closing the open one. -/
theorem fragment_exclusivity_cex :
    ¬ (foldTaskEvents
        [(TaskEvent.text "Hello", 0), (TaskEvent.toolUse "tu1" "write_file", 1)]
        initialAgentState).streamingMessages.length ≤ 1 := by
  decide

/-- C1 (amended): fragment exclusivity holds for event sequences that
contain no `tool_use` and no `tool_use_input` event: folding any such
sequence from the empty state leaves at most one open streaming
fragment.  (Since the hypothesis is closed under taking a shorter
sequence, this bounds the fragment list after folding each event.)
In general a `tool_use` event, or a `tool_use_input` event whose tool
name does not match the last open fragment, appends a new fragment
without closing the open one, so the list can exceed one element. -/
theorem fragment_exclusivity_no_tool_events
    (evs : List (TaskEvent × Nat))
    (h : ∀ p ∈ evs, isToolStreamEvent p.1 = false) :
    (foldTaskEvents evs initialAgentState).streamingMessages.length ≤ 1 := by
  exact singleTextFragment_length_le
    (foldTaskEvents_preserves_singleText evs initialAgentState h (by decide))

/-- Witness for the amended C1 theorem at a concrete event sequence. -/
theorem fragment_exclusivity_no_tool_events_witness :
    (foldTaskEvents
      [(TaskEvent.text "a", 0),
       (TaskEvent.message { role := .assistant, content := [], timestamp := 1, checkpointId := none }, 1),
       (TaskEvent.text "b", 2)]
      initialAgentState).streamingMessages.length ≤ 1 :=
  fragment_exclusivity_no_tool_events _ (by decide)

/-! ## C2: text ordering -/

/-- Folding a run of `text` events onto a state whose last fragment is a
streaming text fragment appends all the chunks, in arrival order, to
that fragment. -/
theorem foldTaskEvents_text_append (cs : List (String × Nat)) :
    ∀ (msgs : List CompleteMessage) (pre : List StreamingMessage)
      (id t : String) (ts : Nat) (run : Bool) (nid : Nat),
      foldTaskEvents (cs.map fun p => (TaskEvent.text p.1, p.2))
        ⟨msgs, pre ++ [.streamingText id t ts], run, nid⟩
        = ⟨msgs, pre ++ [.streamingText id (concatFrom t (cs.map Prod.fst)) ts], run, nid⟩ := by
  induction cs with
  | nil => intro msgs pre id t ts run nid; rfl
  | cons c cs ih =>
      intro msgs pre id t ts run nid
      have hstep :
          handleTaskEvent (TaskEvent.text c.1) c.2
              ⟨msgs, pre ++ [.streamingText id t ts], run, nid⟩
            = ⟨msgs, pre ++ [.streamingText id (t ++ c.1) ts], run, nid⟩ := by
        simp [handleTaskEvent, List.getLast?_concat, List.dropLast_concat]
      show foldTaskEvents (cs.map fun p => (TaskEvent.text p.1, p.2))
          (handleTaskEvent (TaskEvent.text c.1) c.2
            ⟨msgs, pre ++ [.streamingText id t ts], run, nid⟩) = _
      rw [hstep]
      exact ih msgs pre id (t ++ c.1) ts run nid

/-- C2: folding a nonempty sequence of consecutive `text` events, with no
intervening `tool_use` or `message` event, onto a state whose last
fragment is not an open text fragment, yields an open text fragment
whose text is the concatenation of all the chunks in arrival order. -/
theorem text_ordering_concat (c0 : String × Nat) (cs : List (String × Nat))
    (st : AgentState) (h : lastIsStreamingText st.streamingMessages = false) :
    (foldTaskEvents ((c0 :: cs).map fun p => (TaskEvent.text p.1, p.2)) st).streamingMessages
      = st.streamingMessages ++
        [.streamingText (generateMessageId "delta" st.nextId)
          (concatChunks ((c0 :: cs).map Prod.fst)) c0.2] := by
  obtain ⟨msgs, sms, run, nid⟩ := st
  have hstep :
      handleTaskEvent (TaskEvent.text c0.1) c0.2 ⟨msgs, sms, run, nid⟩
        = ⟨msgs, sms ++ [.streamingText (generateMessageId "delta" nid) c0.1 c0.2],
           run, nid + 1⟩ := by
    cases hl : sms.getLast? with
    | none => simp [handleTaskEvent, hl]
    | some sm =>
        cases sm with
        | streamingText id t ts =>
            exfalso
            simp [lastIsStreamingText, hl] at h
        | streamingToolUse id n pi ts => simp [handleTaskEvent, hl]
  show (foldTaskEvents (cs.map fun p => (TaskEvent.text p.1, p.2))
      (handleTaskEvent (TaskEvent.text c0.1) c0.2 ⟨msgs, sms, run, nid⟩)).streamingMessages = _
  rw [hstep, foldTaskEvents_text_append cs msgs sms (generateMessageId "delta" nid) c0.1 c0.2 run (nid + 1)]
  simp [concatChunks, concatFrom]

/-- Witness for C2 at a concrete chunk sequence and the empty state. -/
theorem text_ordering_concat_witness :
    lastIsStreamingText initialAgentState.streamingMessages = false ∧
    (foldTaskEvents
        ([("ab", 0), ("cd", 1)].map fun p => (TaskEvent.text p.1, p.2))
        initialAgentState).streamingMessages
      = initialAgentState.streamingMessages ++
        [.streamingText (generateMessageId "delta" initialAgentState.nextId)
          (concatChunks ([("ab", 0), ("cd", 1)].map Prod.fst)) 0] :=
  ⟨by decide, text_ordering_concat ("ab", 0) [("cd", 1)] initialAgentState (by decide)⟩

/-! ## C3: tool-input accumulation and the reducer golden run -/

/-- First three events of the golden run: a `tool_use` for `write_file`
followed by two `tool_use_input` chunks of its JSON input. -/
def goldenRunFirstThree : List (TaskEvent × Nat) :=
  [(TaskEvent.toolUse "tu1" "write_file", 1),
   (TaskEvent.toolUseInput "tu1" "write_file" "\x7b\"path\":", 2),
   (TaskEvent.toolUseInput "tu1" "write_file" "\"a.txt\"\x7d", 3)]

/-- The golden run with its final `message` event. -/
def goldenRunAll : List (TaskEvent × Nat) :=
  goldenRunFirstThree ++
    [(TaskEvent.message
        { role := .assistant,
          content := [ContentBlock.toolUse "tu1" "write_file" "\x7b\"path\":\"a.txt\"\x7d"],
          timestamp := 4, checkpointId := none }, 4)]

/-- C3: behaviour of the `tool_use_input` case, plus the golden run.
First conjunct: when the most recently opened fragment is a tool-use
fragment, the event concatenates onto its accumulated input exactly when
the tool name matches, and otherwise opens a new fragment seeded with the
chunk.  Second and third conjuncts: when the fragment list is empty or
ends in a text fragment, a new tool-use fragment is opened whose input is
the chunk.  Last conjuncts: the golden run yields, before the final
`message` event, exactly one open tool-use fragment with accumulated
input `\x7b"path":"a.txt"\x7d`, and after it zero open fragments and one
finalized message. -/
theorem tool_input_accumulation :
    (∀ (msgs : List CompleteMessage) (pre : List StreamingMessage)
       (id n pi : String) (ts : Nat) (run : Bool) (nid now : Nat)
       (tid toolName partialInput : String),
       handleTaskEvent (TaskEvent.toolUseInput tid toolName partialInput) now
           ⟨msgs, pre ++ [.streamingToolUse id n pi ts], run, nid⟩
         = if n = toolName then
             ⟨msgs, pre ++ [.streamingToolUse id n (pi ++ partialInput) ts], run, nid⟩
           else
             ⟨msgs, (pre ++ [.streamingToolUse id n pi ts]) ++
                [.streamingToolUse (generateMessageId "delta" nid) toolName partialInput now],
              run, nid + 1⟩) ∧
    (∀ (msgs : List CompleteMessage) (run : Bool) (nid now : Nat)
       (tid toolName partialInput : String),
       handleTaskEvent (TaskEvent.toolUseInput tid toolName partialInput) now
           ⟨msgs, [], run, nid⟩
         = ⟨msgs, [.streamingToolUse (generateMessageId "delta" nid) toolName partialInput now],
            run, nid + 1⟩) ∧
    (∀ (msgs : List CompleteMessage) (pre : List StreamingMessage)
       (id t : String) (ts : Nat) (run : Bool) (nid now : Nat)
       (tid toolName partialInput : String),
       handleTaskEvent (TaskEvent.toolUseInput tid toolName partialInput) now
           ⟨msgs, pre ++ [.streamingText id t ts], run, nid⟩
         = ⟨msgs, (pre ++ [.streamingText id t ts]) ++
              [.streamingToolUse (generateMessageId "delta" nid) toolName partialInput now],
            run, nid + 1⟩) ∧
    (foldTaskEvents goldenRunFirstThree initialAgentState).streamingMessages
      = [.streamingToolUse "delta-0" "write_file" "\x7b\"path\":\"a.txt\"\x7d" 1] ∧
    (foldTaskEvents goldenRunAll initialAgentState).streamingMessages = [] ∧
    (foldTaskEvents goldenRunAll initialAgentState).messages.length = 1 := by
  refine ⟨?_, ?_, ?_, by decide, by decide, by decide⟩
  · intro msgs pre id n pi ts run nid now tid toolName partialInput
    by_cases hn : n = toolName
    · simp [handleTaskEvent, List.getLast?_concat, List.dropLast_concat, hn]
    · simp [handleTaskEvent, List.getLast?_concat, List.dropLast_concat, hn]
  · intro msgs run nid now tid toolName partialInput
    rfl
  · intro msgs pre id t ts run nid now tid toolName partialInput
    simp [handleTaskEvent, List.getLast?_concat]

/-! ## C4: finalized-message immutability -/

/-- C4: a `message` event clears the open fragment list and appends
exactly one finalized message built from the event payload; and `text`,
`tool_use_input` and `tool_use` events never change the finalized
message list (they touch only the streaming fragments), so a message
finalized earlier is never mutated by them. -/
theorem message_finalize_frame :
    (∀ (msgs : List CompleteMessage) (sms : List StreamingMessage)
       (run : Bool) (nid now : Nat) (m : MessagePayload),
       handleTaskEvent (TaskEvent.message m) now ⟨msgs, sms, run, nid⟩
         = ⟨msgs ++ [{ id := generateMessageId "message" nid,
                       role := m.role, content := m.content,
                       timestamp := m.timestamp, checkpointId := m.checkpointId }],
            [], run, nid + 1⟩) ∧
    (∀ (st : AgentState) (now : Nat) (c : String),
       (handleTaskEvent (TaskEvent.text c) now st).messages = st.messages) ∧
    (∀ (st : AgentState) (now : Nat) (tid tn pin : String),
       (handleTaskEvent (TaskEvent.toolUseInput tid tn pin) now st).messages = st.messages) ∧
    (∀ (st : AgentState) (now : Nat) (tid tn : String),
       (handleTaskEvent (TaskEvent.toolUse tid tn) now st).messages = st.messages) := by
  refine ⟨fun _ _ _ _ _ _ => rfl, ?_, ?_, fun _ _ _ _ => rfl⟩
  · intro st now c
    simp only [handleTaskEvent]
    split <;> rfl
  · intro st now tid tn pin
    simp only [handleTaskEvent]
    split
    · split <;> rfl
    · rfl

/-! ## Task API client commands and the useAgent hook actions

From task_api_client.ts (`TaskWebSocketClientMessage` and the
`startTask`/`resumeTask` methods) and use_agent.ts
(`runTask`, `resumeTask`, `cancelCurrentTask`, and the error path of
`handleTaskEvents`). -/

/-- Client-to-server commands (`TaskWebSocketClientMessage` of types.ts). -/
inductive ClientCommand
  | startTask (task : String) (fileAttachments : Option (List String))
  | resumeTask (lastEventId : Option String)
  | cancelTask
  | approveTool (approved : Bool)
deriving DecidableEq

/-- `TaskApiClient.resumeTask(lastEventId?)` opens a connection whose
queued initial message is `\x7b action: "resumeTask", lastEventId \x7d`. -/
def clientResumeTaskMessage (lastEventId : Option String) : ClientCommand :=
  ClientCommand.resumeTask lastEventId

/-- The `resumeTask` callback of the useAgent hook calls
`client.resumeTask()` with no argument, so the initial message it sends
carries no cursor. -/
def useAgentResumeCommand : ClientCommand :=
  clientResumeTaskMessage none

/-- State of the useAgent hook visible to `runTask` and
`cancelCurrentTask`: the SWR message cache, the streaming fragments, the
running flag, `agentSocketRef.current` (a connection handle, modelled as
`Unit`), and the id counter. -/
structure HookState where
  messages : List CompleteMessage
  streamingMessages : List StreamingMessage
  isTaskRunning : Bool
  agentSocket : Option Unit
  nextId : Nat
deriving DecidableEq

/-- Initial hook state: nothing running, no connection. -/
def initialHookState : HookState :=
  { messages := [], streamingMessages := [], isTaskRunning := false,
    agentSocket := none, nextId := 0 }

/-- The error thrown by `runTask` when a task is already running
(use_agent.ts lines 419 to 423; message truncated to its first
sentence). -/
def runTaskErrorText : String := "A task is already running."

/-- Models `input.trim()`: strip leading and trailing whitespace. -/
def jsTrim (s : String) : String :=
  List.asString (((s.data.dropWhile Char.isWhitespace).reverse.dropWhile Char.isWhitespace).reverse)

/-- `runTask` (use_agent.ts lines 415 to 465): empty input returns
silently; if a task is running it throws before any mutation (no
optimistic message, no connection); otherwise it appends the optimistic
user message, clears streaming state, sets the running flag and opens a
connection carrying the `startTask` command.  `Except.error` models the
thrown error; the returned command models the message sent on the newly
opened connection. -/
def runTask (input : String) (now : Nat) (st : HookState) :
    Except String (HookState × Option ClientCommand) :=
  if jsTrim input = "" then Except.ok (st, none)
  else if st.isTaskRunning then Except.error runTaskErrorText
  else
    Except.ok
      ({ st with
          messages := st.messages ++
            [{ id := generateMessageId "optimistic" st.nextId,
               role := .user, content := [ContentBlock.text input],
               timestamp := now, checkpointId := none }],
          streamingMessages := [],
          isTaskRunning := true,
          agentSocket := some (),
          nextId := st.nextId + 1 },
       some (ClientCommand.startTask input (some [])))

/-- `cancelCurrentTask` (use_agent.ts lines 397 to 413): when no task is
running it returns at once, silently, with no error and no state change;
when a task is running but no socket handle exists, the internal throw is
caught and logged, again with no error surfaced and no state change;
otherwise it sends `cancelTask` and clears the running flag. -/
def cancelCurrentTask (st : HookState) :
    Except String (HookState × Option ClientCommand) :=
  if st.isTaskRunning = false then Except.ok (st, none)
  else
    match st.agentSocket with
    | none => Except.ok (st, none)
    | some _ =>
        Except.ok ({ st with isTaskRunning := false }, some ClientCommand.cancelTask)

/-- The `catch`/`finally` path of `handleTaskEvents` (use_agent.ts lines
367 to 373): on a stream error or on completion the hook clears the
running flag and the streaming fragments; it opens no new connection and
sends no command — there is no retry of the task stream. -/
def onTaskStreamTermination (st : HookState) : HookState × Option ClientCommand :=
  ({ st with isTaskRunning := false, streamingMessages := [] }, none)

/-! ## C6: resume-with-cursor -/

/-- C6 counterexample: the claim that each reconnection retry carries the
last observed `eventId` in the `resumeTask` command is false.  On a
transport failure the hook issues no command at all (there is no retry
pipeline for the task stream), and the one `resumeTask` command the hook
ever builds carries no cursor: with last observed eventId "42" the
command still has `lastEventId = none`. -/
theorem resume_cursor_cex :
    (onTaskStreamTermination
        { messages := [], streamingMessages := [], isTaskRunning := true,
          agentSocket := some (), nextId := 0 }).2 = none ∧
    useAgentResumeCommand ≠ ClientCommand.resumeTask (some "42") ∧
    useAgentResumeCommand = ClientCommand.resumeTask none := by
  refine ⟨rfl, ?_, rfl⟩
  decide

/-- C6 (amended): the task streaming connection is never retried on
transport failure — the hook clears the running flag and the fragments
and issues no command — and the `resumeTask` command issued by the
hook's `resumeTask` callback always carries `lastEventId = none`, even
though `TaskApiClient.resumeTask` accepts an optional cursor and would
place it in the command it sends. -/
theorem resume_no_retry_no_cursor :
    (∀ st : HookState,
       (onTaskStreamTermination st).2 = none ∧
       (onTaskStreamTermination st).1.isTaskRunning = false ∧
       (onTaskStreamTermination st).1.streamingMessages = []) ∧
    useAgentResumeCommand = ClientCommand.resumeTask none ∧
    (∀ cursor : Option String,
       clientResumeTaskMessage cursor = ClientCommand.resumeTask cursor) :=
  ⟨fun _ => ⟨rfl, rfl, rfl⟩, rfl, fun _ => rfl⟩

/-! ## C9: caller-misuse fail-fast -/

/-- C9 counterexample: the claim that `cancelCurrentTask` with no active
task fails fast with a descriptive error is false.  On the idle initial
state it returns successfully, leaving the state unchanged and sending
nothing: a silent no-op rather than an error. -/
theorem caller_misuse_cex :
    cancelCurrentTask initialHookState = Except.ok (initialHookState, none) := by
  rfl

/-- C9 (amended): `runTask` while a task is running fails fast with a
descriptive error and no partial side effects — no optimistic message,
no connection, no state change (the error branch is taken before any
mutation).  `cancelCurrentTask` with no running task is a silent no-op:
it returns without an error, without a state change and without a
command; and when the running flag is set but no socket handle exists
the internal error is caught, so again nothing is surfaced or changed. -/
theorem caller_misuse_fail_fast :
    (∀ (input : String) (now : Nat) (st : HookState),
       jsTrim input ≠ "" → st.isTaskRunning = true →
       runTask input now st = Except.error runTaskErrorText) ∧
    (∀ st : HookState, st.isTaskRunning = false →
       cancelCurrentTask st = Except.ok (st, none)) ∧
    (∀ st : HookState, st.isTaskRunning = true → st.agentSocket = none →
       cancelCurrentTask st = Except.ok (st, none)) := by
  refine ⟨?_, ?_, ?_⟩
  · intro input now st hin hrun
    simp [runTask, hin, hrun]
  · intro st hrun
    simp [cancelCurrentTask, hrun]
  · intro st hrun hsock
    simp [cancelCurrentTask, hrun, hsock]

/-- Witness for the amended C9 theorem at a concrete running state. -/
theorem caller_misuse_fail_fast_witness :
    runTask "hi" 0
        { messages := [], streamingMessages := [], isTaskRunning := true,
          agentSocket := some (), nextId := 0 }
      = Except.error runTaskErrorText :=
  caller_misuse_fail_fast.1 "hi" 0
    { messages := [], streamingMessages := [], isTaskRunning := true,
      agentSocket := some (), nextId := 0 }
    (by decide) rfl

/-! ## C5: the MCP WebSocket retry pipeline

From use_mcp_servers.ts (useMcpServers): the pipeline is
`retry(\x7b count: 10, delay: (_err, retryCount) =>
timer(Math.min(1000 * 2 ** retryCount, 30000)), resetOnSuccess: true \x7d)`.
The rxjs `retry` operator keeps a consecutive-failure counter; on the
k-th consecutive failure with k at most `count` it waits the configured
delay (the delay callback receives the already incremented counter,
starting at 1) and resubscribes, on a further failure it propagates a
terminal error, and with `resetOnSuccess: true` the counter is reset to
zero whenever the source emits. -/

/-- Backoff delay in milliseconds for a given retry attempt. -/
def mcpRetryDelay (retryCount : Nat) : Nat :=
  min (1000 * 2 ^ retryCount) 30000

/-- Maximum number of retries configured in useMcpServers. -/
def mcpRetryCountMax : Nat := 10

/-- State of the retry pipeline: the consecutive-failure counter, the
delays waited so far (in order), and whether a terminal error was
propagated. -/
structure RetrySim where
  retryCount : Nat
  delays : List Nat
  terminalError : Bool
deriving DecidableEq

/-- One observed outcome folded through the retry operator: `true` is a
transport failure, `false` is a successful emission from the source. -/
def retryStep (s : RetrySim) (failed : Bool) : RetrySim :=
  if s.terminalError then s
  else if failed then
    if s.retryCount < mcpRetryCountMax then
      { s with retryCount := s.retryCount + 1,
               delays := s.delays ++ [mcpRetryDelay (s.retryCount + 1)] }
    else { s with terminalError := true }
  else { s with retryCount := 0 }

/-- Run the retry pipeline from a fresh subscription. -/
def runRetrySim (outcomes : List Bool) : RetrySim :=
  outcomes.foldl retryStep { retryCount := 0, delays := [], terminalError := false }

/-- A list of naturals is non-decreasing from left to right. -/
def nondecreasing : List Nat → Bool
  | [] => true
  | [_] => true
  | a :: b :: t => a ≤ b && nondecreasing (b :: t)

theorem retryStep_retryCount_le (s : RetrySim) (b : Bool)
    (h : s.retryCount ≤ mcpRetryCountMax) :
    (retryStep s b).retryCount ≤ mcpRetryCountMax := by
  unfold retryStep
  split
  · exact h
  · split
    · split
      · simp only [mcpRetryCountMax] at *
        omega
      · exact h
    · simp

theorem foldl_retryStep_retryCount_le (outcomes : List Bool) :
    ∀ s : RetrySim, s.retryCount ≤ mcpRetryCountMax →
      (outcomes.foldl retryStep s).retryCount ≤ mcpRetryCountMax := by
  induction outcomes with
  | nil => intro s h; exact h
  | cons b bs ih =>
      intro s h
      exact ih (retryStep s b) (retryStep_retryCount_le s b h)

/-- C5: the reconnection pipeline retries at most 10 times in a row; a
server that always rejects produces a terminal error after exactly the
10 configured retries (10 consecutive failures exhaust no retry yet, the
11th failure propagates the error), with observed delays
`[2000, 4000, 8000, 16000, 30000, ..., 30000]` — non-decreasing, each
given by doubling a 1000 ms base per attempt, and capped at the 30000 ms
ceiling — and the attempt counter resets to zero on any successful
emission (`resetOnSuccess: true`). -/
theorem reconnect_bound_backoff :
    (∀ outcomes : List Bool, (runRetrySim outcomes).retryCount ≤ mcpRetryCountMax) ∧
    runRetrySim (List.replicate 10 true)
      = { retryCount := 10,
          delays := [2000, 4000, 8000, 16000, 30000, 30000, 30000, 30000, 30000, 30000],
          terminalError := false } ∧
    runRetrySim (List.replicate 11 true)
      = { retryCount := 10,
          delays := [2000, 4000, 8000, 16000, 30000, 30000, 30000, 30000, 30000, 30000],
          terminalError := true } ∧
    nondecreasing (runRetrySim (List.replicate 11 true)).delays = true ∧
    (∀ d ∈ (runRetrySim (List.replicate 11 true)).delays, d ≤ 30000) ∧
    (∀ k l : Nat, k ≤ l → mcpRetryDelay k ≤ mcpRetryDelay l) ∧
    (∀ k : Nat, mcpRetryDelay k ≤ 30000) ∧
    (∀ (rc : Nat) (ds : List Nat),
       retryStep { retryCount := rc, delays := ds, terminalError := false } false
         = { retryCount := 0, delays := ds, terminalError := false }) := by
  refine ⟨fun outcomes => foldl_retryStep_retryCount_le outcomes _ (by decide),
          by decide, by decide, by decide, by decide, ?_, ?_, ?_⟩
  · intro k l hkl
    exact min_le_min
      (Nat.mul_le_mul_left 1000 (Nat.pow_le_pow_right (by norm_num) hkl)) le_rfl
  · intro k
    exact min_le_right _ _
  · intro rc ds
    simp [retryStep]

/-- Witness for C5 at concrete retry attempt numbers. -/
theorem reconnect_bound_backoff_witness :
    3 ≤ 7 ∧ mcpRetryDelay 3 ≤ mcpRetryDelay 7 :=
  ⟨by decide, reconnect_bound_backoff.2.2.2.2.2.1 3 7 (by decide)⟩

/-! ## C10: status-pattern hierarchy (matchStatus in use_mcp_servers.ts) -/

/-- Sub-states of the `connecting` status object. -/
inductive ConnectingSub
  | initializing
  | awaitingOAuth
deriving DecidableEq, Fintype

/-- Sub-states of the `connected` status object. -/
inductive ConnectedSub
  | initial
  | toolDiscovered
deriving DecidableEq, Fintype

/-- The `McpClientStatus` union of types.ts: six plain string statuses
and two one-key objects with a sub-state. -/
inductive McpClientStatus
  | disconnected
  | connecting (sub : ConnectingSub)
  | connected (sub : ConnectedSub)
  | disconnecting
  | disconnectingDueToError
  | error
  | aborting
  | disposed
deriving DecidableEq, Fintype

/-- The JavaScript runtime shape of a status value: either a string, or
an object with a single key (the parent state) whose value is the
child state string. -/
inductive JsStatusValue
  | strVal (s : String)
  | objVal (parent child : String)
deriving DecidableEq

/-- How each `McpClientStatus` value is represented at runtime. -/
def McpClientStatus.toJs : McpClientStatus → JsStatusValue
  | .disconnected => .strVal "disconnected"
  | .connecting .initializing => .objVal "connecting" "initializing"
  | .connecting .awaitingOAuth => .objVal "connecting" "awaitingOAuth"
  | .connected .initial => .objVal "connected" "initial"
  | .connected .toolDiscovered => .objVal "connected" "toolDiscovered"
  | .disconnecting => .strVal "disconnecting"
  | .disconnectingDueToError => .strVal "disconnectingDueToError"
  | .error => .strVal "error"
  | .aborting => .strVal "aborting"
  | .disposed => .strVal "disposed"

/-- Models `pattern.split(".")`. -/
def jsSplitDot (s : String) : List String :=
  (s.data.splitOn '.').map List.asString

/-- `matchStatus` (use_mcp_servers.ts lines 59 to 83), operating on the
runtime shape.  A dotted pattern (`pattern.includes(".")`) is split on
the dot; the match succeeds when the status is an object containing the
parent key whose value equals the child.  A plain pattern matches a
string status by equality and an object status by key membership. -/
def matchStatus (status : JsStatusValue) (pattern : String) : Bool :=
  if pattern.data.contains '.' then
    match jsSplitDot pattern with
    | parent :: child :: _ =>
        match status with
        | .objVal p c => p == parent && c == child
        | .strVal _ => false
    | _ => false
  else
    match status with
    | .strVal s => s == pattern
    | .objVal p _ => p == pattern

/-- C10: for every status value and every dotted pattern of the valid
pattern union, `matchStatus` succeeds exactly when the status is the
object whose parent field equals the child; and the match is monotone in
the hierarchy: a dotted match implies the corresponding parent-only
match. -/
theorem match_status_hierarchy :
    ∀ s : McpClientStatus,
      ((matchStatus s.toJs "connecting.initializing" = true
          ↔ s = .connecting .initializing) ∧
       (matchStatus s.toJs "connecting.awaitingOAuth" = true
          ↔ s = .connecting .awaitingOAuth) ∧
       (matchStatus s.toJs "connected.initial" = true
          ↔ s = .connected .initial) ∧
       (matchStatus s.toJs "connected.toolDiscovered" = true
          ↔ s = .connected .toolDiscovered)) ∧
      ((matchStatus s.toJs "connecting.initializing" = true →
          matchStatus s.toJs "connecting" = true) ∧
       (matchStatus s.toJs "connecting.awaitingOAuth" = true →
          matchStatus s.toJs "connecting" = true) ∧
       (matchStatus s.toJs "connected.initial" = true →
          matchStatus s.toJs "connected" = true) ∧
       (matchStatus s.toJs "connected.toolDiscovered" = true →
          matchStatus s.toJs "connected" = true)) := by
  decide

/-- Witness for C10: the dotted match at a concrete status implies the
parent match. -/
theorem match_status_hierarchy_witness :
    matchStatus (McpClientStatus.connecting ConnectingSub.awaitingOAuth).toJs
      "connecting" = true :=
  (match_status_hierarchy (McpClientStatus.connecting ConnectingSub.awaitingOAuth)).2.2.1
    (by decide)

/-! ## The reverse-proxy middleware (src/api/middlewares/proxy.ts)

The middleware is built with an origin URL and an optional path
segment to strip.  On each request it rebases the request URL onto the
origin host and protocol, strips the configured path segment (an empty
stripped path becomes "/"), and joins with the origin path whose one
trailing slash was removed so that the join produces no double slash.
Plain HTTP requests are handed to `hono/proxy` and its response is
returned untouched; WebSocket upgrades open exactly one upstream socket
and pump both directions. -/

/-- The pieces of a URL the middleware manipulates. -/
structure UrlParts where
  protocol : String
  host : String
  pathname : String
  search : String
deriving DecidableEq

/-- Models `rawPath.slice(n)`: drop the first `n` characters. -/
def jsSlice (s : String) (n : Nat) : String :=
  List.asString (s.data.drop n)

/-- Models `rawPath.startsWith(pfx)`. -/
def jsStartsWith (s pfx : String) : Bool :=
  pfx.data.isPrefixOf s.data

/-- Models `basePath = base.pathname.replace(/\/$/, "")`: the regex
removes one trailing slash. -/
def dropOneTrailingSlash (p : String) : String :=
  if p.data.getLast? = some '/' then List.asString p.data.dropLast else p

/-- The path rewrite of proxy.ts lines 24 to 29: when the configured
segment `pfx` (the `stripPrefix` option) is nonempty and starts the raw
path, drop it, substituting "/" when nothing is left, and join onto the
origin path. -/
def rewriteProxyPath (basePathname pfx rawPath : String) : String :=
  let basePath := dropOneTrailingSlash basePathname
  let strippedPath :=
    if pfx ≠ "" ∧ jsStartsWith rawPath pfx = true then
      (if jsSlice rawPath pfx.data.length = "" then "/"
       else jsSlice rawPath pfx.data.length)
    else rawPath
  basePath ++ strippedPath

/-- An inbound request as the middleware sees it. -/
structure ProxyRequest where
  method : String
  url : UrlParts
  upgradeIsWebsocket : Bool
deriving DecidableEq

/-- The target URL built by the middleware: the request URL rebased onto
the origin host and protocol with the rewritten path; the query string
is untouched. -/
def proxyTarget (base : UrlParts) (pfx : String) (req : ProxyRequest) : UrlParts :=
  { protocol := base.protocol, host := base.host,
    pathname := rewriteProxyPath base.pathname pfx req.url.pathname,
    search := req.url.search }

/-- An upstream HTTP response. -/
structure HttpResponse where
  status : Nat
  body : String
deriving DecidableEq

/-- The HTTP branch: `return await honoProxy(target.href, \x7b raw \x7d)` —
the upstream is invoked on the rewritten target with the request method
and the resulting response is returned as is. -/
def proxyHandleHttp (base : UrlParts) (pfx : String)
    (upstreamFn : String → UrlParts → HttpResponse) (req : ProxyRequest) :
    HttpResponse :=
  upstreamFn req.method (proxyTarget base pfx req)

/-- `new URL("http://localhost:3000")` — its pathname is "/". -/
def remotionOriginUrl : UrlParts :=
  { protocol := "http:", host := "localhost:3000", pathname := "/", search := "" }

/-- The request `GET /remotion/foo?x=1`. -/
def remotionFooRequest : ProxyRequest :=
  { method := "GET",
    url := { protocol := "http:", host := "example.com",
             pathname := "/remotion/foo", search := "x=1" },
    upgradeIsWebsocket := false }

/-! ## C7: proxy path rewrite -/

/-- C7: `GET /remotion/foo?x=1` through the proxy configured with strip
segment "/remotion" and origin `http://localhost:3000` is forwarded as
`GET http://localhost:3000/foo?x=1` — the matched segment is stripped
and the query preserved — and for every upstream the status and body
returned are exactly the upstream's own (the middleware returns the
upstream response unchanged).  When stripping leaves nothing the
forwarded path is "/", and a trailing slash on the origin path is
dropped before joining so that stripping produces no double slash. -/
theorem proxy_path_rewrite :
    (∀ upstreamFn : String → UrlParts → HttpResponse,
       proxyHandleHttp remotionOriginUrl "/remotion" upstreamFn remotionFooRequest
         = upstreamFn "GET"
             { protocol := "http:", host := "localhost:3000",
               pathname := "/foo", search := "x=1" }) ∧
    rewriteProxyPath "/" "/remotion" "/remotion" = "/" ∧
    rewriteProxyPath "/" "/remotion" "/remotion/foo" = "/foo" ∧
    rewriteProxyPath "/sub/" "/remotion" "/remotion/foo" = "/sub/foo" ∧
    rewriteProxyPath "/" "" "/anything" = "/anything" := by
  refine ⟨?_, by decide, by decide, by decide, by decide⟩
  intro upstreamFn
  have h : proxyTarget remotionOriginUrl "/remotion" remotionFooRequest
      = { protocol := "http:", host := "localhost:3000",
          pathname := "/foo", search := "x=1" } := by decide
  show upstreamFn remotionFooRequest.method
      (proxyTarget remotionOriginUrl "/remotion" remotionFooRequest) = _
  rw [h]
  rfl

/-! ## C8: WebSocket close relay -/

/-- A WebSocket close code and reason. -/
structure CloseInfo where
  code : Nat
  reason : String
deriving DecidableEq

/-- The close information a peer observes when `close()` was called with
no arguments: the close frame carries no status code, so the peer sees
the no-status code 1005 and an empty reason. -/
def defaultCloseInfo : CloseInfo :=
  { code := 1005, reason := "" }

/-- The argument the handler `upstream.onclose = () => socket.close()`
passes to `socket.close`: none — the upstream close event `e` is
discarded, whatever its code and reason. -/
def upstreamOncloseArgs (_e : CloseInfo) : Option CloseInfo :=
  none

/-- The close information delivered to a peer for a given `close`
argument. -/
def deliveredClose (args : Option CloseInfo) : CloseInfo :=
  args.getD defaultCloseInfo

/-- The live state of one proxied WebSocket pair. -/
structure WsPair where
  clientOpen : Bool
  upstreamOpen : Bool
  clientObservedClose : Option CloseInfo
  upstreamObservedClose : Option CloseInfo
deriving DecidableEq

/-- State of the pair right after the upgrade branch ran: the branch
calls `Deno.upgradeWebSocket` once and `new WebSocket(target)` once, so
exactly one upstream socket is opened for the client socket.  The first
component lists the upstream connections opened, in order. -/
def handleUpgrade (target : UrlParts) : List UrlParts × WsPair :=
  ([target],
   { clientOpen := true, upstreamOpen := true,
     clientObservedClose := none, upstreamObservedClose := none })

/-- Effect of the upstream socket closing with close event `e`:
`upstream.onclose` runs `socket.close()` with no arguments, so the
client socket closes too, observing only the default close info. -/
def onUpstreamClose (e : CloseInfo) (st : WsPair) : WsPair :=
  { st with
    upstreamOpen := false, upstreamObservedClose := some e,
    clientOpen := false,
    clientObservedClose := some (deliveredClose (upstreamOncloseArgs e)) }

/-- Effect of the client socket closing with close event `e`:
`socket.onclose` runs `upstream.close()` with no arguments, closing the
upstream socket. -/
def onClientClose (e : CloseInfo) (st : WsPair) : WsPair :=
  { st with
    clientOpen := false, clientObservedClose := some e,
    upstreamOpen := false,
    upstreamObservedClose := some (deliveredClose none) }

/-- C8 counterexample: the claim that the close code and reason
delivered to the client are exactly the upstream's own is false.  When
the upstream closes with code 4001 and reason "bye", the client observes
the default no-status close (1005, ""), because the onclose handler
calls `socket.close()` without forwarding the event's code or reason. -/
theorem ws_close_relay_cex :
    (onUpstreamClose { code := 4001, reason := "bye" }
        (handleUpgrade remotionOriginUrl).2).clientObservedClose
      = some { code := 1005, reason := "" } ∧
    (onUpstreamClose { code := 4001, reason := "bye" }
        (handleUpgrade remotionOriginUrl).2).clientObservedClose
      ≠ some { code := 4001, reason := "bye" } := by
  refine ⟨rfl, ?_⟩
  decide

/-- C8 (amended): each client upgrade opens exactly one paired upstream
connection, and closing either socket closes the other, so no half-open
socket is leaked; but the upstream's close code and reason are not
relayed: the handler discards the upstream close event and calls
`close()` with no arguments, so the client always observes the default
no-status close regardless of the upstream's own code and reason. -/
theorem ws_pair_close_propagation :
    (∀ target : UrlParts, (handleUpgrade target).1 = [target]) ∧
    (∀ (e : CloseInfo) (st : WsPair),
       (onUpstreamClose e st).clientOpen = false ∧
       (onUpstreamClose e st).upstreamOpen = false) ∧
    (∀ (e : CloseInfo) (st : WsPair),
       (onClientClose e st).upstreamOpen = false ∧
       (onClientClose e st).clientOpen = false) ∧
    (∀ e : CloseInfo, upstreamOncloseArgs e = none) ∧
    (∀ (e : CloseInfo) (st : WsPair),
       (onUpstreamClose e st).clientObservedClose = some defaultCloseInfo) :=
  ⟨fun _ => rfl, fun _ _ => ⟨rfl, rfl⟩, fun _ _ => ⟨rfl, rfl⟩,
   fun _ => rfl, fun _ _ => rfl⟩
